import Mathlib

/-!
Verification development for the RideCanvas repository.

Shallow embedding of:
* the client-side image preprocessor `compressImage`
  (src/services/geminiService.ts),
* the server-side prompt composer `buildBasePrompt`,
  `buildFirstGenerationPrompt`, `buildFollowUpGenerationPrompt`
  (server templates file),
* the generation pipeline `generateArt` / `generateRemainingFormats` /
  `generateArtSet` (src/services/geminiService.ts composed with the
  serverless handlers),
* the checkout / payment-return state machine of src/App.tsx
  (`handlePurchase`, `handlePaymentReturn`, `handleDevUnlock`,
  `getStanceOptions`) and the verify-payment serverless handler.

External effects (the generative model, Stripe, the browser canvas encoder)
are passed in as explicit function parameters, so every definition is a total
computable Lean function of its inputs.
-/

namespace RideCanvas

/-! ## Enumerations from src/types.ts (TypeScript string enums) -/

inductive ArtStyle
  | POSTER
  | STICKER
  deriving DecidableEq, Repr

def ArtStyle.val : ArtStyle → String
  | .POSTER => "Poster Art"
  | .STICKER => "Sticker Badge"

inductive BackgroundTheme
  | SOLID
  | GRADIENT
  | MOUNTAINS
  | FOREST
  | DESERT
  | TOPO
  | CITY
  | NEON
  | GARAGE
  deriving DecidableEq, Repr

def BackgroundTheme.val : BackgroundTheme → String
  | .SOLID => "Studio Clean"
  | .GRADIENT => "Soft Gradient"
  | .MOUNTAINS => "Mountain Peaks"
  | .FOREST => "Nordic Forest"
  | .DESERT => "Desert Dunes"
  | .TOPO => "Topographic"
  | .CITY => "City Skyline"
  | .NEON => "Neon Night"
  | .GARAGE => "Studio Garage"

inductive VehicleCategory
  | OFFROAD
  | SPORTS
  | LUXURY
  | CLASSIC
  | EVERYDAY
  deriving DecidableEq, Repr

inductive FidelityMode
  | EXACT_MATCH
  | CLEAN_BUILD
  | FACTORY_FRESH
  deriving DecidableEq, Repr

def FidelityMode.val : FidelityMode → String
  | .EXACT_MATCH => "Exact Match"
  | .CLEAN_BUILD => "Clean Build"
  | .FACTORY_FRESH => "Factory Fresh"

inductive PositionMode
  | AS_PHOTOGRAPHED
  | SIDE_PROFILE
  deriving DecidableEq, Repr

def PositionMode.val : PositionMode → String
  | .AS_PHOTOGRAPHED => "As Photographed"
  | .SIDE_PROFILE => "Side Profile"

inductive StanceStyle
  | STOCK
  | LIFTED
  | STEELIES
  | LOWERED
  deriving DecidableEq, Repr

def StanceStyle.val : StanceStyle → String
  | .STOCK => "Stock"
  | .LIFTED => "Lifted + AT"
  | .STEELIES => "Steelies + Mud"
  | .LOWERED => "Lowered + Wheels"

/-! ## VehicleAnalysis and friends (src/types.ts / server templates) -/

structure PopularMod where
  id : String
  name : String
  description : String
  deriving DecidableEq, Repr

structure PopularWheel where
  name : String
  style : String
  deriving DecidableEq, Repr

structure WheelAudit where
  hasWhiteLettering : Bool
  hasCenterCaps : Bool
  centerCapColor : String
  wheelColor : String
  wheelFinish : String
  wheelType : String
  deriving DecidableEq, Repr

structure GeometryAudit where
  bodyShape : String
  windowLayout : String
  frontDetail : String
  deriving DecidableEq, Repr

structure VisualFeatures where
  roofGear : String
  wheelStyle : String
  distinctiveMarkings : String
  deriving DecidableEq, Repr

structure VehicleAnalysis where
  make : String
  model : String
  year : String
  color : String
  category : VehicleCategory
  isOffroad : Bool
  orientation : String
  facingDirection : String
  mods : List String
  installedAccessories : List String
  geometryAudit : GeometryAudit
  wheelAudit : Option WheelAudit
  visualFeatures : VisualFeatures
  popularMods : List PopularMod
  popularWheels : List PopularWheel
  suggestedStance : StanceStyle
  suggestedBackground : BackgroundTheme
  deriving DecidableEq, Repr

/-! ## Image Preprocessor (compressImage, src/services/geminiService.ts)

The browser decoder/encoder is abstracted: a `SourceImage` carries the decoded
pixel dimensions and an `encSize` function giving the base64 length that
`canvas.toDataURL('image/jpeg', quality)` produces for a canvas of the given
size holding (a scaled draw of) this image.  JPEG quality is modelled in
hundredths (`75` for `0.75`, step `10` for `0.1`, floor check `30` for `0.3`,
fallback `60` for `0.6`); each floating-point quality value reached by the
source loop (0.75, 0.65, 0.55, 0.45, 0.35, 0.25 up to rounding error) lies
strictly on the same side of 0.3 as its integer counterpart, so the integer
model decides the loop guard exactly as the JS doubles do. -/

def MAX_IMAGE_DIMENSION : Nat := 1400

def MAX_PAYLOAD_SIZE_BYTES : Nat := 3 * 1024 * 1024

structure SourceImage where
  width : Nat
  height : Nat
  /-- base64 payload length produced by the canvas JPEG encoder for a canvas
      of size (w, h) at quality q (in hundredths). -/
  encSize : Nat → Nat → Nat → Nat

/-- The initial resize: if either dimension exceeds `MAX_IMAGE_DIMENSION`,
scale both by `min (MAX/width) (MAX/height)` and `Math.round` the results
(`Math.round x = ⌊x + 1/2⌋` for the nonnegative values that occur here,
which is Mathlib's `round`). -/
def resizeDims (width height : Nat) : Nat × Nat :=
  if MAX_IMAGE_DIMENSION < width ∨ MAX_IMAGE_DIMENSION < height then
    let ratio : ℚ :=
      min ((MAX_IMAGE_DIMENSION : ℚ) / width) ((MAX_IMAGE_DIMENSION : ℚ) / height)
    ((round ((width : ℚ) * ratio)).toNat, (round ((height : ℚ) * ratio)).toNat)
  else
    (width, height)

/-- The `while (base64Data.length > MAX_PAYLOAD_SIZE_BYTES && quality > 0.3)`
loop of `compressImage`, returning the list of qualities at which the loop
body re-encodes.  `sizeAt q` is the encoded size at quality `q` at the
current canvas dimensions.  `fuel` only bounds the recursion: the quality
drops by `10` on every pass and the guard requires `30 < q`, so starting with
`fuel = q` the fuel can never run out before the guard fails. -/
def compressLoop (sizeAt : Nat → Nat) : Nat → Nat → List Nat
  | 0, _ => []
  | fuel + 1, q =>
    if MAX_PAYLOAD_SIZE_BYTES < sizeAt q ∧ 30 < q then
      (q - 10) :: compressLoop sizeAt fuel (q - 10)
    else
      []

/-- Qualities (hundredths) at which the iterative-reduction loop re-encodes,
after the initial encode at quality 75. -/
def loopQualities (img : SourceImage) : List Nat :=
  let w := (resizeDims img.width img.height).1
  let h := (resizeDims img.width img.height).2
  compressLoop (fun q => img.encSize w h q) 75 75

/-- One `canvas.toDataURL` invocation: canvas dimensions and JPEG quality. -/
structure EncodeCall where
  w : Nat
  h : Nat
  q : Nat
  deriving DecidableEq, Repr

structure CompressResult where
  width : Nat
  height : Nat
  size : Nat
  calls : List EncodeCall
  deriving Repr

/-- `compressImage` (src/services/geminiService.ts lines 25-79): resize to the
maximum dimension, encode at quality 0.75, iteratively lower the quality while
the payload is too large and the quality is above 0.3, and if the payload is
still too large shrink the canvas once by 0.7 and re-encode once at quality
0.6.  The promise resolves with whatever the last encode produced; the result
records the final canvas dimensions, the final payload size, and the full
trace of encoder invocations. -/
def compressImage (img : SourceImage) : CompressResult :=
  let w := (resizeDims img.width img.height).1
  let h := (resizeDims img.width img.height).2
  let sizeAt := fun q => img.encSize w h q
  let qs := loopQualities img
  let qFinal := qs.getLastD 75
  let loopCalls := EncodeCall.mk w h 75 :: qs.map (fun q => EncodeCall.mk w h q)
  if MAX_PAYLOAD_SIZE_BYTES < sizeAt qFinal then
    let w2 := (round ((w : ℚ) * (7 / 10))).toNat
    let h2 := (round ((h : ℚ) * (7 / 10))).toNat
    ⟨w2, h2, img.encSize w2 h2 60, loopCalls ++ [EncodeCall.mk w2 h2 60]⟩
  else
    ⟨w, h, sizeAt qFinal, loopCalls⟩

/-- An oversized upload whose encoder stubbornly reports 4 MiB for every
encode attempt: 6000x4000 pixels, every `toDataURL` call yielding a payload
of `4 * 1024 * 1024` characters. -/
def stubbornImage : SourceImage :=
  ⟨6000, 4000, fun _ _ _ => 4 * 1024 * 1024⟩



/-! ### Preprocessor bounds (claims C1, C2) -/

lemma round_toNat_le_of_le (x : ℚ) (n : Nat) (h : x ≤ n) : (round x).toNat ≤ n := by
  rw [Int.toNat_le, round_eq]
  have h1 : ⌊x + 1 / 2⌋ ≤ ⌊(n : ℚ) + 1 / 2⌋ := Int.floor_le_floor (by linarith)
  have h2 : ⌊(n : ℚ) + 1 / 2⌋ = n := by
    rw [show ((n : ℚ) = ((n : ℤ) : ℚ)) by push_cast; ring, Int.floor_int_add]
    norm_num
  omega

lemma round_seven_tenths_le (n : Nat) : (round ((n : ℚ) * (7 / 10))).toNat ≤ n := by
  apply round_toNat_le_of_le
  have h0 : (0 : ℚ) ≤ (n : ℚ) := Nat.cast_nonneg n
  nlinarith

lemma resizeDims_le (w h : Nat) (hw : 0 < w) (hh : 0 < h) :
    (resizeDims w h).1 ≤ MAX_IMAGE_DIMENSION ∧ (resizeDims w h).2 ≤ MAX_IMAGE_DIMENSION := by
  have hw0 : (0 : ℚ) < (w : ℚ) := by exact_mod_cast hw
  have hh0 : (0 : ℚ) < (h : ℚ) := by exact_mod_cast hh
  simp only [resizeDims]
  split
  · constructor
    · apply round_toNat_le_of_le
      calc (w : ℚ) * min ((MAX_IMAGE_DIMENSION : ℚ) / w) ((MAX_IMAGE_DIMENSION : ℚ) / h)
          ≤ (w : ℚ) * ((MAX_IMAGE_DIMENSION : ℚ) / w) :=
            mul_le_mul_of_nonneg_left (min_le_left _ _) (le_of_lt hw0)
        _ = (MAX_IMAGE_DIMENSION : ℚ) := by field_simp
    · apply round_toNat_le_of_le
      calc (h : ℚ) * min ((MAX_IMAGE_DIMENSION : ℚ) / w) ((MAX_IMAGE_DIMENSION : ℚ) / h)
          ≤ (h : ℚ) * ((MAX_IMAGE_DIMENSION : ℚ) / h) :=
            mul_le_mul_of_nonneg_left (min_le_right _ _) (le_of_lt hh0)
        _ = (MAX_IMAGE_DIMENSION : ℚ) := by field_simp
  · next hc =>
    push_neg at hc
    exact hc

/-- Claim C1 counterexample: for an oversized input whose encoder reports a
4 MiB payload at every attempted quality and dimension, `compressImage`
resolves with a payload that still exceeds `MAX_PAYLOAD_SIZE_BYTES`; the
source only degrades quality and size best-effort, it does not enforce the
byte ceiling on the value it resolves with. -/
theorem compressImage_exceeds_ceiling_cex :
    MAX_IMAGE_DIMENSION < stubbornImage.width ∧
    MAX_PAYLOAD_SIZE_BYTES < (compressImage stubbornImage).size := by decide

/-- Claim C1 (amended): for every decoded input image, `compressImage`
resolves (the model is a total function: oversized input is never an error),
the output raster dimensions are both at most `MAX_IMAGE_DIMENSION`, and the
output payload either fits under `MAX_PAYLOAD_SIZE_BYTES` or is exactly what
the encoder produced at the lowest fallback settings (the 0.7-shrunk canvas
at quality 0.6). -/
theorem compressImage_within_limits (img : SourceImage)
    (hw : 0 < img.width) (hh : 0 < img.height) :
    (compressImage img).width ≤ MAX_IMAGE_DIMENSION ∧
    (compressImage img).height ≤ MAX_IMAGE_DIMENSION ∧
    ((compressImage img).size ≤ MAX_PAYLOAD_SIZE_BYTES ∨
      (compressImage img).size =
        img.encSize (compressImage img).width (compressImage img).height 60) := by
  obtain ⟨h1, h2⟩ := resizeDims_le img.width img.height hw hh
  simp only [compressImage]
  split
  · exact ⟨le_trans (round_seven_tenths_le _) h1,
      le_trans (round_seven_tenths_le _) h2, Or.inr rfl⟩
  · next hsmall =>
    exact ⟨h1, h2, Or.inl (Nat.le_of_not_lt hsmall)⟩

theorem compressImage_within_limits_witness :
    0 < stubbornImage.width ∧ 0 < stubbornImage.height ∧
    ((compressImage stubbornImage).width ≤ MAX_IMAGE_DIMENSION ∧
      (compressImage stubbornImage).height ≤ MAX_IMAGE_DIMENSION ∧
      ((compressImage stubbornImage).size ≤ MAX_PAYLOAD_SIZE_BYTES ∨
        (compressImage stubbornImage).size =
          stubbornImage.encSize (compressImage stubbornImage).width
            (compressImage stubbornImage).height 60)) :=
  ⟨by decide, by decide, compressImage_within_limits stubbornImage (by decide) (by decide)⟩

lemma compressLoop_start75 (sizeAt : Nat → Nat) :
    compressLoop sizeAt 75 75 ∈
      ([[], [65], [65, 55], [65, 55, 45], [65, 55, 45, 35], [65, 55, 45, 35, 25]] :
        List (List Nat)) := by
  have e75 : compressLoop sizeAt 75 75 =
      if MAX_PAYLOAD_SIZE_BYTES < sizeAt 75 ∧ 30 < 75 then
        65 :: compressLoop sizeAt 74 65
      else [] := rfl
  have e65 : compressLoop sizeAt 74 65 =
      if MAX_PAYLOAD_SIZE_BYTES < sizeAt 65 ∧ 30 < 65 then
        55 :: compressLoop sizeAt 73 55
      else [] := rfl
  have e55 : compressLoop sizeAt 73 55 =
      if MAX_PAYLOAD_SIZE_BYTES < sizeAt 55 ∧ 30 < 55 then
        45 :: compressLoop sizeAt 72 45
      else [] := rfl
  have e45 : compressLoop sizeAt 72 45 =
      if MAX_PAYLOAD_SIZE_BYTES < sizeAt 45 ∧ 30 < 45 then
        35 :: compressLoop sizeAt 71 35
      else [] := rfl
  have e35 : compressLoop sizeAt 71 35 =
      if MAX_PAYLOAD_SIZE_BYTES < sizeAt 35 ∧ 30 < 35 then
        25 :: compressLoop sizeAt 70 25
      else [] := rfl
  have e25 : compressLoop sizeAt 70 25 =
      if MAX_PAYLOAD_SIZE_BYTES < sizeAt 25 ∧ 30 < 25 then
        15 :: compressLoop sizeAt 69 15
      else [] := rfl
  rw [e75]
  by_cases h75 : MAX_PAYLOAD_SIZE_BYTES < sizeAt 75
  · rw [if_pos ⟨h75, by norm_num⟩, e65]
    by_cases h65 : MAX_PAYLOAD_SIZE_BYTES < sizeAt 65
    · rw [if_pos ⟨h65, by norm_num⟩, e55]
      by_cases h55 : MAX_PAYLOAD_SIZE_BYTES < sizeAt 55
      · rw [if_pos ⟨h55, by norm_num⟩, e45]
        by_cases h45 : MAX_PAYLOAD_SIZE_BYTES < sizeAt 45
        · rw [if_pos ⟨h45, by norm_num⟩, e35]
          by_cases h35 : MAX_PAYLOAD_SIZE_BYTES < sizeAt 35
          · rw [if_pos ⟨h35, by norm_num⟩, e25,
              if_neg (fun hc => by exact absurd hc.2 (by norm_num))]
            decide
          · rw [if_neg (fun hc => h35 hc.1)]; decide
        · rw [if_neg (fun hc => h45 hc.1)]; decide
      · rw [if_neg (fun hc => h55 hc.1)]; decide
    · rw [if_neg (fun hc => h65 hc.1)]; decide
  · rw [if_neg (fun hc => h75 hc.1)]; decide

/-- Claim C2 counterexample: with the stubborn 4 MiB encoder the iterative
reduction loop re-encodes at quality 0.25 (25 hundredths), which is below
the claimed floor of 0.3: the loop guard tests `quality > 0.3` before
decrementing, so the last encode happens one step below the floor. -/
theorem quality_floor_violated_cex :
    25 ∈ loopQualities stubbornImage ∧ 25 < 30 := by decide

/-- Claim C2 (amended): the iterative reduction lowers the JPEG quality in
fixed steps of 0.1 starting from 0.75 (the re-encode qualities are always a
prefix of 0.65, 0.55, 0.45, 0.35, 0.25), every re-encode of the loop happens
at a quality of at least 0.25 — one step below the 0.3 floor, because the
guard checks the floor before decrementing — and if the payload is still
oversized after the loop, the canvas dimensions are shrunk exactly once by
the factor 0.7 and exactly one further encode happens, at the fallback
quality 0.6. -/
theorem compressImage_quality_schedule (img : SourceImage) :
    loopQualities img ∈
      ([[], [65], [65, 55], [65, 55, 45], [65, 55, 45, 35], [65, 55, 45, 35, 25]] :
        List (List Nat)) ∧
    (∀ q ∈ loopQualities img, 25 ≤ q ∧ q ≤ 65) ∧
    (MAX_PAYLOAD_SIZE_BYTES <
        img.encSize (resizeDims img.width img.height).1 (resizeDims img.width img.height).2
          ((loopQualities img).getLastD 75) →
      (compressImage img).calls =
        (EncodeCall.mk (resizeDims img.width img.height).1
            (resizeDims img.width img.height).2 75 ::
          (loopQualities img).map
            (fun q => EncodeCall.mk (resizeDims img.width img.height).1
              (resizeDims img.width img.height).2 q)) ++
        [EncodeCall.mk (round (((resizeDims img.width img.height).1 : ℚ) * (7 / 10))).toNat
          (round (((resizeDims img.width img.height).2 : ℚ) * (7 / 10))).toNat 60]) := by
  have hmem : loopQualities img ∈
      ([[], [65], [65, 55], [65, 55, 45], [65, 55, 45, 35], [65, 55, 45, 35, 25]] :
        List (List Nat)) := by
    simp only [loopQualities]
    exact compressLoop_start75 _
  refine ⟨hmem, ?_, ?_⟩
  · intro q hq
    simp only [List.mem_cons, List.mem_singleton, List.not_mem_nil, or_false] at hmem
    rcases hmem with h | h | h | h | h | h <;> rw [h] at hq <;> fin_cases hq <;> omega
  · intro hbig
    simp only [compressImage]
    rw [if_pos hbig]

theorem compressImage_quality_schedule_witness :
    (MAX_PAYLOAD_SIZE_BYTES <
        stubbornImage.encSize (resizeDims stubbornImage.width stubbornImage.height).1
          (resizeDims stubbornImage.width stubbornImage.height).2
          ((loopQualities stubbornImage).getLastD 75)) ∧
    (compressImage stubbornImage).calls =
      (EncodeCall.mk (resizeDims stubbornImage.width stubbornImage.height).1
          (resizeDims stubbornImage.width stubbornImage.height).2 75 ::
        (loopQualities stubbornImage).map
          (fun q => EncodeCall.mk (resizeDims stubbornImage.width stubbornImage.height).1
            (resizeDims stubbornImage.width stubbornImage.height).2 q)) ++
      [EncodeCall.mk
        (round (((resizeDims stubbornImage.width stubbornImage.height).1 : ℚ) * (7 / 10))).toNat
        (round (((resizeDims stubbornImage.width stubbornImage.height).2 : ℚ) * (7 / 10))).toNat
        60] :=
  ⟨by decide, (compressImage_quality_schedule stubbornImage).2.2 (by decide)⟩

/-! ## Prompt Composer (server-side templates file, first variant)

`buildBasePrompt` takes plain string-valued options (the serverless handlers
pass request-body strings through), looks each one up in a fixed fragment
table, and falls back to a fixed default fragment when the lookup misses
(the `||` defaults of the source).  Template literals become explicit
concatenations; `.trim()` is `String.trim`. -/

def BACKGROUND_PROMPTS : String → Option String
  | "Studio Clean" => some "Clean studio solid matte background in neutral dark tone. Subtle reflective floor."
  | "Soft Gradient" => some "Soft gradient background, dark to lighter tones. Studio floor."
  | "Mountain Peaks" => some "Geometric mountain silhouettes with large minimalist Sun circle. Rocky gravel ground."
  | "Nordic Forest" => some "Nordic pine silhouettes in layered forest greens. Dark earth clearing foreground."
  | "Desert Dunes" => some "Vector canyon mesas and sand dunes in terracotta tones. Sandy ground."
  | "Topographic" => some "Technical topographic contour lines on matte background. Minimal ground line."
  | "City Skyline" => some "Minimalist city skyline silhouette in cool blue-gray. Asphalt street."
  | "Neon Night" => some "Dark urban nightscape with neon glows. Wet asphalt with reflections."
  | "Studio Garage" => some "Clean automotive studio with professional lighting. Polished concrete floor."
  | _ => none

def STANCE_PROMPTS : String → Option String
  | "Stock" => some "Keep EXACT wheel design, tire size, and suspension height from source."
  | "Lifted + AT" => some "Add 2-3 inch lift with aggressive AT tires. Increase tire sidewall."
  | "Steelies + Mud" => some "Black steel wheels (steelies) with 33-inch mud-terrain tires. 2-inch lift."
  | "Lowered + Wheels" => some "Lower 1-2 inches, sportier stance. Add aftermarket wheels with low profile tires."
  | _ => none

def FIDELITY_PROMPTS : String → Option String
  | "Exact Match" => some "EXACT MATCH: Include ALL stickers, decals, mud, dirt, scratches."
  | "Clean Build" => some "CLEAN BUILD: Keep all mods/stickers but remove dirt and imperfections."
  | "Factory Fresh" => some "FACTORY FRESH: Remove all aftermarket mods. Pure stock OEM look."
  | _ => none

structure GenerateArtParams where
  analysis : VehicleAnalysis
  style : String
  background : String
  fidelity : String
  position : String
  stance : String
  selectedMods : List String
  popularWheelName : Option String

/-- JS truthiness of an optional string: `undefined` and `""` are falsy. -/
def optTruthy : Option String → Bool
  | none => false
  | some s => s != ""

/-- The `positionInstructions` ternary of `buildBasePrompt`. -/
def positionText (position : String) (analysis : VehicleAnalysis) : String :=
  if position = "As Photographed" then
    "Keep the EXACT same angle and perspective as the source photo. Preserve orientation: "
      ++ analysis.orientation ++ ", facing " ++ analysis.facingDirection ++ "."
  else
    "Convert to a CLEAN SIDE PROFILE view (90-degree lateral). Facing "
      ++ analysis.facingDirection ++ "."

/-- The `stancePrompt` computation: `STANCE_PROMPTS at the stance key, falling back to the Stock entry of STANCE_PROMPTS`,
overridden with the dynamic wheel text when the stance is Lowered + Wheels and a
popular wheel name is present. -/
def stanceText (stance : String) (popularWheelName : Option String) : String :=
  if stance = "Lowered + Wheels" ∧ optTruthy popularWheelName then
    "Lower 1-2 inches, sportier stance. Add " ++ popularWheelName.getD ""
      ++ " with low profile tires."
  else
    match STANCE_PROMPTS stance with
    | some t => t
    | none =>
      match STANCE_PROMPTS "Stock" with
      | some t => t
      | none => "undefined"

/-- `FIDELITY_PROMPTS at the fidelity key, falling back to the Clean Build entry`. -/
def conditionText (fidelity : String) : String :=
  match FIDELITY_PROMPTS fidelity with
  | some t => t
  | none =>
    match FIDELITY_PROMPTS "Clean Build" with
    | some t => t
    | none => "undefined"

/-- `BACKGROUND_PROMPTS at the background key, falling back to the Mountain Peaks entry`. -/
def sceneText (background : String) : String :=
  match BACKGROUND_PROMPTS background with
  | some t => t
  | none =>
    match BACKGROUND_PROMPTS "Mountain Peaks" with
    | some t => t
    | none => "undefined"

/-- The `accessories` fragment. -/
def accessoriesText (installedAccessories : List String) : String :=
  if installedAccessories ≠ [] then
    "INSTALLED ACCESSORIES (include these): "
      ++ String.intercalate ", " installedAccessories
  else ""

/-- The `mods` fragment. -/
def modsText (selectedMods : List String) : String :=
  if selectedMods ≠ [] then
    "ADD VIRTUAL MODS: " ++ String.intercalate ", " selectedMods
  else ""

/-- The art-style ternary at the end of the template. -/
def styleText (style : String) : String :=
  if style = "Poster Art" then "Editorial Poster Art aesthetic."
  else "Vector Badge/Sticker aesthetic."

/-- The 59-character box-drawing separator row used throughout the prompt
templates (spelled out as a repeated character to keep the embedding file
free of long literal runs). -/
def SEPARATOR_ROW : String := String.mk (List.replicate 59 (Char.ofNat 0x2550))

/-- The fixed invariant block of the base prompt. -/
def DO_NOT_INVENT_BLOCK : String :=
  "" ++ SEPARATOR_ROW ++ "\n⚠️ CRITICAL: DO NOT INVENT OR ADD OBJECTS ⚠️\n" ++ SEPARATOR_ROW ++ "\n\nONLY reproduce what is ACTUALLY VISIBLE in the source photo.\n\nDO NOT ADD:\n✗ Bicycles, kayaks, surfboards, or any cargo - unless CLEARLY visible in the source\n✗ People, animals, or figures\n✗ Additional gear or equipment not shown in the photo\n✗ Logos, text, or badges that don\x27t exist in the source\n\nIf you see an EMPTY rack (bike rack, roof rack, etc.), draw it EMPTY.\nIf a rack has items attached, reproduce ONLY those exact items.\n\nThe goal is FAITHFUL REPRODUCTION of the source vehicle, not creative interpretation.\n\n" ++ SEPARATOR_ROW ++ ""

/-- `buildBasePrompt` from the server templates file (first variant). -/
def buildBasePrompt (params : GenerateArtParams) : String :=
  let analysis := params.analysis
  String.trim
    ("\n**VEHICLE:** " ++ analysis.year ++ " " ++ analysis.make ++ " " ++ analysis.model
      ++ " (" ++ analysis.color ++ ")"
      ++ "\n**POSITION:** " ++ positionText params.position analysis
      ++ "\n**CONDITION:** " ++ conditionText params.fidelity
      ++ "\n**STANCE:** " ++ stanceText params.stance params.popularWheelName
      ++ "\n**SCENE:** " ++ sceneText params.background
      ++ "\n" ++ accessoriesText analysis.installedAccessories
      ++ "\n" ++ modsText params.selectedMods
      ++ "\n\n" ++ DO_NOT_INVENT_BLOCK
      ++ "\n\n**STYLE:** High-Fidelity Technical Vector Art. Clean lines, matte cel-shading."
      ++ "\n" ++ styleText params.style
      ++ "\nSharp vector paths, no photo textures. Premium wallpaper quality."
      ++ "\n  ")

inductive ArtFormat
  | phone
  | desktop
  | print
  deriving DecidableEq, Repr

structure FormatConfig where
  /-- source field name: aspectRatio -/
  aspect : String
  orientation : String
  composition : String
  resolution : String

def PHONE_COMPOSITION : String :=
  "\n      PHONE WALLPAPER COMPOSITION - EPIC LANDSCAPE STYLE:\n      " ++ SEPARATOR_ROW ++ "\n      ⚠️ THE VEHICLE MUST BE SMALL - THIS IS CRITICAL ⚠️\n      " ++ SEPARATOR_ROW ++ "\n      \n      Think: National Geographic landscape photo with a tiny vehicle in the distance.\n      Think: Photography from 80-100 meters away.\n      Think: Epic adventure poster where the SCENERY is the hero.\n      \n      VEHICLE SIZE: Maximum 25-28% of image WIDTH (small!)\n      VEHICLE POSITION: Center-lower area (55-60% down from top)\n      \n      The vehicle should feel like a small object in a VAST landscape.\n      Lots of sky above for phone clock, widgets, and notch.\n      The background/scenery should dominate the composition.\n      \n      This creates dramatic wallpaper with room for phone UI elements.\n      " ++ SEPARATOR_ROW ++ "\n    "

def DESKTOP_COMPOSITION : String :=
  "\n      DESKTOP WALLPAPER COMPOSITION:\n      - Vehicle centered, slightly lower (55% from top)\n      - Wide panoramic feel\n      - Car size: 40-45% of image width\n      - Space on sides for desktop icons\n    "

def PRINT_COMPOSITION : String :=
  "\n      PRINT COMPOSITION:\n      - Vehicle centered (50% from top)\n      - Balanced margins for framing\n      - Car size: 50% of image width\n      - High detail for large format printing\n    "

def FORMAT_CONFIGS : ArtFormat → FormatConfig
  | .phone => ⟨"9:16", "VERTICAL/PORTRAIT (9:16, taller than wide)", PHONE_COMPOSITION, "2160x3840 (4K vertical - Ultra HD quality)"⟩
  | .desktop => ⟨"16:9", "HORIZONTAL/LANDSCAPE (16:9, wider than tall)", DESKTOP_COMPOSITION, "3840x2160 (4K UHD - Ultra HD quality)"⟩
  | .print => ⟨"4:3", "HORIZONTAL/LANDSCAPE (4:3, classic photo ratio)", PRINT_COMPOSITION, "4096x3072 (4K print quality - suitable for large format printing)"⟩

/-- `buildFirstGenerationPrompt` from the server templates file. -/
def buildFirstGenerationPrompt (basePrompt : String) (format : ArtFormat) : String :=
  let config := FORMAT_CONFIGS format
  String.trim
    ("\n**FORMAT:** " ++ config.orientation
      ++ "\n**RESOLUTION:** " ++ config.resolution
      ++ "\n\n" ++ config.composition
      ++ "\n\n" ++ basePrompt
      ++ "\n\n**IMPORTANT:** This artwork will be used as the STYLE REFERENCE for other aspect ratios."
      ++ "\nCreate a distinctive, cohesive visual style that can be replicated."
      ++ "\n\n**OUTPUT:** Generate a high-quality " ++ config.aspect ++ " vector art wallpaper."
      ++ "\n  ")

def FOLLOWUP_HEAD : String :=
  "\n**CRITICAL: MATCH THE STYLE OF THE REFERENCE ART EXACTLY**\n\nI\x27m providing TWO images:\n1. The REFERENCE ART (first image) - This is the style you MUST match\n2. The ORIGINAL PHOTO (second image) - The source vehicle\n\nYour task: Create the SAME artwork but in "

def FOLLOWUP_MID : String :=
  " aspect ratio.\n\n" ++ SEPARATOR_ROW ++ "\n⚠️ VEHICLE PROPORTIONS - DO NOT DISTORT ⚠️\n" ++ SEPARATOR_ROW ++ "\n\nThe vehicle in your output MUST have the EXACT SAME PROPORTIONS as in the reference art.\n\nDO NOT:\n✗ Stretch the vehicle horizontally to fill wider formats\n✗ Compress the vehicle vertically \n✗ Change the width-to-height ratio of the car\n✗ Make the car look \"squashed\" or \"elongated\"\n\nDO:\n✓ Keep the vehicle\x27s proportions IDENTICAL to the reference\n✓ Add MORE BACKGROUND to fill the new aspect ratio\n✓ Extend the sky, ground, or scenery - NOT the car\n✓ The car should look like it was copy-pasted from the reference\n\n" ++ SEPARATOR_ROW ++ "\n\nSTYLE MATCHING REQUIREMENTS:\n- EXACT same color palette as reference\n- EXACT same artistic style and line work\n- EXACT same background elements (extend them, don\x27t change them)\n- EXACT same level of detail and shading\n- The vehicle should be PIXEL-PERFECT identical in proportions\n\n**FORMAT:** "

def FOLLOWUP_TAIL : String :=
  " image with the vehicle having IDENTICAL proportions to the reference. Extend the BACKGROUND to fill the new aspect ratio, NOT the car.\n  "

/-- `buildFollowUpGenerationPrompt` from the server templates file. -/
def buildFollowUpGenerationPrompt (basePrompt : String) (format : ArtFormat) : String :=
  let config := FORMAT_CONFIGS format
  String.trim
    (FOLLOWUP_HEAD ++ config.aspect ++ FOLLOWUP_MID ++ config.orientation
      ++ "\n**RESOLUTION:** " ++ config.resolution
      ++ "\n\n" ++ config.composition
      ++ "\n\n" ++ basePrompt
      ++ "\n\n**OUTPUT:** Generate a " ++ config.aspect ++ FOLLOWUP_TAIL)


/-! ## Generation Pipeline (src/services/geminiService.ts + serverless handlers)

The external image model is a parameter `render : RenderRequest → String`
(deterministic stub, as the spec prescribes for testing this contract).  A
`RenderRequest` carries the optional reference image, the original photo and
the composed instruction text — exactly the parts the handlers send to the
model. -/

structure RenderRequest where
  reference : Option String
  source : String
  prompt : String

structure GeneratedArtSet where
  phone : String
  desktop : String
  print : String
  deriving DecidableEq, Repr

/-- Client `generateArt` composed with the generate-art handler: one render of
the phone format from the first-generation prompt, no reference image. -/
def generateArt (render : RenderRequest → String) (image : String)
    (params : GenerateArtParams) : String :=
  render ⟨none, image, buildFirstGenerationPrompt (buildBasePrompt params) ArtFormat.phone⟩

/-- Client `generateRemainingFormats` composed with the generate-remaining
handler: two follow-up renders (desktop, print) that each receive the existing
phone art as reference, and a result whose phone field is the `previewArt` the
handler was given (`data: { phone: previewArt, ... }`). -/
def generateRemainingFormats (render : RenderRequest → String)
    (image existingPhoneArt : String) (params : GenerateArtParams) : GeneratedArtSet :=
  let basePrompt := buildBasePrompt params
  { phone := existingPhoneArt,
    desktop := render ⟨some existingPhoneArt, image,
      buildFollowUpGenerationPrompt basePrompt ArtFormat.desktop⟩,
    print := render ⟨some existingPhoneArt, image,
      buildFollowUpGenerationPrompt basePrompt ArtFormat.print⟩ }

/-- Client `generateArtSet` (the fallback used when no preview exists): first
render the phone reference, then delegate to `generateRemainingFormats` with
that fresh phone art. -/
def generateArtSet (render : RenderRequest → String) (image : String)
    (params : GenerateArtParams) : GeneratedArtSet :=
  let phoneArt := generateArt render image params
  generateRemainingFormats render image phoneArt params

/-- A concrete analysis for witnesses. -/
def sampleAnalysis : VehicleAnalysis :=
  { make := "Toyota", model := "4Runner", year := "2019", color := "Gray",
    category := .OFFROAD, isOffroad := true, orientation := "Driver Side",
    facingDirection := "Left", mods := [], installedAccessories := ["roof rack"],
    geometryAudit := ⟨"boxy", "3 windows", "round lights"⟩, wheelAudit := none,
    visualFeatures := ⟨"roof rack", "alloy", "none"⟩, popularMods := [],
    popularWheels := [⟨"Method Race 703", "bronze"⟩],
    suggestedStance := .STOCK, suggestedBackground := .MOUNTAINS }

/-- Concrete composer arguments for witnesses. -/
def sampleParams : GenerateArtParams :=
  { analysis := sampleAnalysis, style := "Poster Art", background := "Nordic Forest",
    fidelity := "Factory Fresh", position := "As Photographed", stance := "Stock",
    selectedMods := ["snorkel"], popularWheelName := some "Method Race 703" }

/-- Claim C3: the full-set pipeline reuses the phone preview as-is: the phone
field of `generateArtSet` is exactly the image produced by the first
(reference) render in the sequence, and `generateRemainingFormats` returns
the reference image it was given, unchanged, as the phone field. -/
theorem artSet_phone_reuses_preview (render : RenderRequest → String)
    (image ref : String) (params : GenerateArtParams) :
    (generateArtSet render image params).phone = generateArt render image params ∧
    (generateRemainingFormats render image ref params).phone = ref :=
  ⟨rfl, rfl⟩

/-- Claim C4: the prompt composer is deterministic and stateless — its output
depends only on its arguments, so two calls with identical arguments produce
byte-identical instruction text, for the base prompt and for both
format-prompt builders. -/
theorem prompt_composer_deterministic (a b : GenerateArtParams) (s t : String)
    (f g : ArtFormat) (hab : a = b) (hst : s = t) (hfg : f = g) :
    buildBasePrompt a = buildBasePrompt b ∧
    buildFirstGenerationPrompt s f = buildFirstGenerationPrompt t g ∧
    buildFollowUpGenerationPrompt s f = buildFollowUpGenerationPrompt t g := by
  subst hab hst hfg
  exact ⟨rfl, rfl, rfl⟩

theorem prompt_composer_deterministic_witness :
    buildBasePrompt sampleParams = buildBasePrompt sampleParams ∧
    buildFirstGenerationPrompt "base" ArtFormat.phone =
      buildFirstGenerationPrompt "base" ArtFormat.phone ∧
    buildFollowUpGenerationPrompt "base" ArtFormat.phone =
      buildFollowUpGenerationPrompt "base" ArtFormat.phone :=
  prompt_composer_deterministic sampleParams sampleParams "base" "base"
    ArtFormat.phone ArtFormat.phone rfl rfl rfl

lemma sceneText_default (b : String) (hb : BACKGROUND_PROMPTS b = none) :
    sceneText b = sceneText "Mountain Peaks" := by
  unfold sceneText
  rw [hb]
  decide

lemma conditionText_default (f : String) (hf : FIDELITY_PROMPTS f = none) :
    conditionText f = conditionText "Clean Build" := by
  unfold conditionText
  rw [hf]
  decide

lemma stanceText_default (s : String) (wn : Option String)
    (hs : STANCE_PROMPTS s = none) :
    stanceText s wn = stanceText "Stock" wn := by
  have hne : s ≠ "Lowered + Wheels" := by
    intro h
    rw [h] at hs
    exact absurd hs (by decide)
  unfold stanceText
  rw [if_neg (fun hc => hne hc.1), if_neg (fun hc => absurd hc.1 (by decide)), hs]
  decide

/-- Claim C10: `buildBasePrompt` is total over arbitrary string-valued option
keys: for any background, fidelity or stance string outside the known tables
it produces exactly the prompt it would produce with the fixed defaults
(Mountain Peaks scene, Clean Build condition, Stock stance) substituted, so
every call returns a well-formed prompt. -/
theorem buildBasePrompt_unknown_options (p : GenerateArtParams)
    (hb : BACKGROUND_PROMPTS p.background = none)
    (hf : FIDELITY_PROMPTS p.fidelity = none)
    (hs : STANCE_PROMPTS p.stance = none) :
    buildBasePrompt p =
      buildBasePrompt { p with background := "Mountain Peaks",
                               fidelity := "Clean Build", stance := "Stock" } := by
  unfold buildBasePrompt
  rw [sceneText_default _ hb, conditionText_default _ hf, stanceText_default _ _ hs]

/-- Concrete composer arguments whose background, fidelity and stance strings
are not known enum values. -/
def unknownOptionParams : GenerateArtParams :=
  { analysis := sampleAnalysis, style := "Poster Art", background := "Lunar Surface",
    fidelity := "Showroom", position := "As Photographed", stance := "Hover",
    selectedMods := [], popularWheelName := some "Method Race 703" }

theorem buildBasePrompt_unknown_options_witness :
    BACKGROUND_PROMPTS "Lunar Surface" = none ∧
    FIDELITY_PROMPTS "Showroom" = none ∧
    STANCE_PROMPTS "Hover" = none ∧
    buildBasePrompt unknownOptionParams =
      buildBasePrompt { unknownOptionParams with background := "Mountain Peaks", fidelity := "Clean Build", stance := "Stock" } :=
  ⟨rfl, rfl, rfl, buildBasePrompt_unknown_options unknownOptionParams rfl rfl rfl⟩


/-! ## Checkout / Unlock Gate and App state machine (src/App.tsx)

The handlers are modelled as state-transition functions on the component
state plus the one localStorage key.  The fallible external calls (payment
verification, the paid-tier render endpoints, the checkout redirect) are
passed as `Except`-valued parameters; alongside the final state each handler
returns the list of paid-tier pipeline calls it issued. -/

inductive Step
  | UPLOAD
  | ANALYZING
  | CUSTOMIZE
  | GENERATING
  | PREVIEW
  | COMPLETE
  deriving DecidableEq, Repr

/-- The snapshot `handlePurchase` writes to localStorage under the key
ridecanvas_pending_art (fields exactly as serialized there). -/
structure PendingArt where
  imageBase64 : String
  analysis : VehicleAnalysis
  background : BackgroundTheme
  fidelity : FidelityMode
  position : PositionMode
  stance : StanceStyle
  selectedMods : List String
  previewArt : String
  deriving DecidableEq, Repr

/-- The React state of the App component touched by the modelled handlers;
`pendingStorage` models the localStorage entry ridecanvas_pending_art. -/
structure AppState where
  step : Step
  imageBase64 : Option String
  analysis : Option VehicleAnalysis
  background : BackgroundTheme
  position : PositionMode
  fidelity : FidelityMode
  stance : StanceStyle
  selectedMods : List String
  previewArt : Option String
  artSet : Option GeneratedArtSet
  hasPaid : Bool
  isProcessingPayment : Bool
  pendingStorage : Option PendingArt
  deriving DecidableEq, Repr

/-- The useState initial values of the App component. -/
def initialAppState : AppState :=
  { step := .UPLOAD, imageBase64 := none, analysis := none,
    background := .MOUNTAINS, position := .SIDE_PROFILE,
    fidelity := .CLEAN_BUILD, stance := .STOCK, selectedMods := [],
    previewArt := none, artSet := none, hasPaid := false,
    isProcessingPayment := false, pendingStorage := none }

/-- A Stripe checkout session as the verify-payment handler sees it. -/
structure StripeSession where
  id : String
  payment_status : String
  deriving DecidableEq, Repr

/-- The response body of api/verify-payment.ts. -/
structure PaymentVerification where
  success : Bool
  sessionId : String
  paymentStatus : String
  deriving DecidableEq, Repr

/-- api/verify-payment.ts: retrieves the session from Stripe and reports
`success := session.payment_status === "paid"` — any other status yields
`success = false`. -/
def verifyPaymentHandler (session : StripeSession) : PaymentVerification :=
  { success := session.payment_status == "paid",
    sessionId := session.id,
    paymentStatus := session.payment_status }

/-- Arguments of a client `generateRemainingFormats` call. -/
structure RemainingArgs where
  image : String
  previewArt : String
  analysis : VehicleAnalysis
  style : ArtStyle
  background : BackgroundTheme
  fidelity : FidelityMode
  position : PositionMode
  stance : StanceStyle
  selectedMods : List String
  deriving DecidableEq, Repr

/-- Arguments of a client `generateArtSet` (full set fallback) call. -/
structure FullSetArgs where
  image : String
  analysis : VehicleAnalysis
  style : ArtStyle
  background : BackgroundTheme
  fidelity : FidelityMode
  position : PositionMode
  stance : StanceStyle
  selectedMods : List String
  deriving DecidableEq, Repr

inductive PipelineCall
  | remaining (args : RemainingArgs)
  | fullSet (args : FullSetArgs)
  deriving DecidableEq, Repr

/-- The arguments `handlePaymentReturn` passes to `generateRemainingFormats`
when restoring a saved snapshot.  The source applies `|| default` fallbacks to
fidelity, position, stance and selectedMods; on a snapshot written by
`handlePurchase` every such field is present (the enum strings are truthy and
a present array is truthy even when empty), so the fallbacks are identities
here. -/
def remainingArgsOfPending (st : PendingArt) : RemainingArgs :=
  ⟨st.imageBase64, st.previewArt, st.analysis, .POSTER, st.background,
    st.fidelity, st.position, st.stance, st.selectedMods⟩

def fullSetArgsOfPending (st : PendingArt) : FullSetArgs :=
  ⟨st.imageBase64, st.analysis, .POSTER, st.background, st.fidelity,
    st.position, st.stance, st.selectedMods⟩

/-- src/App.tsx `handlePaymentReturn`: set the processing flag and enter
GENERATING; verify the session; on any unverified status (or a thrown
verification error) fall into the catch branch, which returns to PREVIEW;
on success restore the saved snapshot, regenerate (remaining formats when a
preview was persisted, the full set otherwise), publish the set, mark paid,
enter COMPLETE and delete the storage key; a failed render throws into the
same catch branch.  The finally clause clears the processing flag. -/
def handlePaymentReturn (verify : Except Unit PaymentVerification)
    (renderRemaining : RemainingArgs → Except Unit GeneratedArtSet)
    (renderFullSet : FullSetArgs → Except Unit GeneratedArtSet)
    (s0 : AppState) : AppState × List PipelineCall :=
  let s := { s0 with isProcessingPayment := true, step := Step.GENERATING }
  let result :=
    match verify with
    | .error _ => ({ s with step := Step.PREVIEW }, [])
    | .ok r =>
      if r.success then
        match s.pendingStorage with
        | none => (s, [])
        | some st =>
          let s1 := { s with imageBase64 := some st.imageBase64,
                             analysis := some st.analysis,
                             background := st.background,
                             position := st.position,
                             fidelity := st.fidelity,
                             stance := st.stance,
                             selectedMods := st.selectedMods }
          if st.previewArt ≠ "" then
            match renderRemaining (remainingArgsOfPending st) with
            | .ok set =>
              ({ s1 with artSet := some set, previewArt := some st.previewArt,
                         hasPaid := true, step := Step.COMPLETE,
                         pendingStorage := none },
                [PipelineCall.remaining (remainingArgsOfPending st)])
            | .error _ =>
              ({ s1 with step := Step.PREVIEW },
                [PipelineCall.remaining (remainingArgsOfPending st)])
          else
            match renderFullSet (fullSetArgsOfPending st) with
            | .ok set =>
              ({ s1 with artSet := some set, previewArt := some st.previewArt,
                         hasPaid := true, step := Step.COMPLETE,
                         pendingStorage := none },
                [PipelineCall.fullSet (fullSetArgsOfPending st)])
            | .error _ =>
              ({ s1 with step := Step.PREVIEW },
                [PipelineCall.fullSet (fullSetArgsOfPending st)])
      else
        ({ s with step := Step.PREVIEW }, [])
  ({ result.1 with isProcessingPayment := false }, result.2)

/-- The snapshot `handlePurchase` serializes before the checkout redirect. -/
def pendingSnapshot (img : String) (an : VehicleAnalysis) (s : AppState)
    (pv : String) : PendingArt :=
  ⟨img, an, s.background, s.fidelity, s.position, s.stance, s.selectedMods, pv⟩

/-- src/App.tsx `handlePurchase`: guard on truthy imageBase64, analysis and
previewArt; set the processing flag; write the snapshot to localStorage; then
redirect to checkout.  `redirect` is the outcome of
createCheckoutSession-plus-navigation; the Bool reports whether the browser
navigated away.  On a redirect failure the catch branch clears the processing
flag (the written snapshot is not removed). -/
def handlePurchase (redirect : Except Unit Unit) (s0 : AppState) :
    AppState × Bool :=
  match s0.imageBase64, s0.analysis, s0.previewArt with
  | some img, some an, some pv =>
    if img = "" ∨ pv = "" then (s0, false)
    else
      let s1 := { s0 with isProcessingPayment := true }
      let s2 := { s1 with pendingStorage := some (pendingSnapshot img an s0 pv) }
      match redirect with
      | .ok _ => (s2, true)
      | .error _ => ({ s2 with isProcessingPayment := false }, false)
  | _, _, _ => (s0, false)

/-- Arguments of the dev-unlock `generateRemainingFormats` call, taken from
the live component state. -/
def devUnlockArgs (img pv : String) (an : VehicleAnalysis) (s : AppState) :
    RemainingArgs :=
  ⟨img, pv, an, .POSTER, s.background, s.fidelity, s.position, s.stance,
    s.selectedMods⟩

/-- src/App.tsx `handleDevUnlock` (in-session unlock path): guard on truthy
imageBase64, analysis and previewArt; enter GENERATING; call
`generateRemainingFormats` on the current state; on success publish the set,
mark paid and enter COMPLETE; on failure return to PREVIEW.  The finally
clause clears the processing flag. -/
def handleDevUnlock (renderRemaining : RemainingArgs → Except Unit GeneratedArtSet)
    (s0 : AppState) : AppState × List PipelineCall :=
  match s0.imageBase64, s0.analysis, s0.previewArt with
  | some img, some an, some pv =>
    if img = "" ∨ pv = "" then (s0, [])
    else
      let s := { s0 with isProcessingPayment := true, step := Step.GENERATING }
      let args := devUnlockArgs img pv an s0
      match renderRemaining args with
      | .ok set =>
        ({ s with artSet := some set, hasPaid := true, step := Step.COMPLETE,
                  isProcessingPayment := false }, [PipelineCall.remaining args])
      | .error _ =>
        ({ s with step := Step.PREVIEW, isProcessingPayment := false },
          [PipelineCall.remaining args])
  | _, _, _ => (s0, [])

structure StanceOption where
  id : StanceStyle
  label : String
  deriving DecidableEq, Repr

/-- src/App.tsx `getStanceOptions`: the stance choices offered by the UI,
keyed on `analysis?.isOffroad`. -/
def getStanceOptions (analysis : Option VehicleAnalysis) : List StanceOption :=
  if (match analysis with | some a => a.isOffroad | none => false) then
    [⟨.STOCK, "Stock"⟩, ⟨.LIFTED, "Lifted"⟩, ⟨.STEELIES, "Mud Tires"⟩]
  else
    [⟨.STOCK, "Stock"⟩, ⟨.LOWERED, "Lowered"⟩]

/-- A fresh page load after the checkout redirect: the React state resets to
its initial values while localStorage persists. -/
def reloadWithStorage (storage : Option PendingArt) : AppState :=
  { initialAppState with pendingStorage := storage }

def streetAnalysis : VehicleAnalysis :=
  { sampleAnalysis with isOffroad := false, category := .SPORTS }

/-- Claim C5: for an analysis with isOffroad = true the stance-option
derivation returns exactly the off-road set (Stock, Lifted + AT,
Steelies + Mud) and never offers Lowered + Wheels; for isOffroad = false it
never offers the off-road-only values Lifted + AT or Steelies + Mud. -/
theorem getStanceOptions_partition (a : VehicleAnalysis) :
    (a.isOffroad = true →
      (getStanceOptions (some a)).map StanceOption.id =
        [StanceStyle.STOCK, StanceStyle.LIFTED, StanceStyle.STEELIES] ∧
      StanceStyle.LOWERED ∉ (getStanceOptions (some a)).map StanceOption.id) ∧
    (a.isOffroad = false →
      StanceStyle.LIFTED ∉ (getStanceOptions (some a)).map StanceOption.id ∧
      StanceStyle.STEELIES ∉ (getStanceOptions (some a)).map StanceOption.id) := by
  constructor <;> intro h <;> simp [getStanceOptions, h]

theorem getStanceOptions_partition_witness :
    ((getStanceOptions (some sampleAnalysis)).map StanceOption.id =
        [StanceStyle.STOCK, StanceStyle.LIFTED, StanceStyle.STEELIES] ∧
      StanceStyle.LOWERED ∉ (getStanceOptions (some sampleAnalysis)).map StanceOption.id) ∧
    (StanceStyle.LIFTED ∉ (getStanceOptions (some streetAnalysis)).map StanceOption.id ∧
      StanceStyle.STEELIES ∉ (getStanceOptions (some streetAnalysis)).map StanceOption.id) :=
  ⟨(getStanceOptions_partition sampleAnalysis).1 rfl,
    (getStanceOptions_partition streetAnalysis).2 rfl⟩

/-- Claim C6: when the verify-payment handler reports any payment status
other than "paid" (success = false), the payment-return flow issues no
paid-tier pipeline call at all (in particular generateRemainingFormats is
never invoked) and the UI state returns to the pre-payment preview step. -/
theorem unverified_payment_no_render (session : StripeSession)
    (rr : RemainingArgs → Except Unit GeneratedArtSet)
    (rf : FullSetArgs → Except Unit GeneratedArtSet)
    (s : AppState) (h : session.payment_status ≠ "paid") :
    (handlePaymentReturn (.ok (verifyPaymentHandler session)) rr rf s).2 = [] ∧
    (handlePaymentReturn (.ok (verifyPaymentHandler session)) rr rf s).1.step =
      Step.PREVIEW := by
  have hs : (verifyPaymentHandler session).success = false := by
    simp [verifyPaymentHandler, h]
  constructor <;> simp [handlePaymentReturn, hs]

theorem unverified_payment_no_render_witness :
    (handlePaymentReturn (.ok (verifyPaymentHandler ⟨"cs_test", "unpaid"⟩))
        (fun _ => .error ()) (fun _ => .error ()) initialAppState).2 = [] ∧
    (handlePaymentReturn (.ok (verifyPaymentHandler ⟨"cs_test", "unpaid"⟩))
        (fun _ => .error ()) (fun _ => .error ()) initialAppState).1.step =
      Step.PREVIEW :=
  unverified_payment_no_render ⟨"cs_test", "unpaid"⟩ _ _ initialAppState (by decide)

/-- Claim C7: if a paid-tier render call fails after a free preview exists,
the preview is preserved (the previewArt component state is left untouched,
and on the payment-return path the stored snapshot that holds the preview is
also retained) and the user is returned to the preceding interactive step
(PREVIEW) — in both the payment-return path and the in-session dev-unlock
path. -/
theorem render_failure_preserves_preview
    (v : PaymentVerification) (rr : RemainingArgs → Except Unit GeneratedArtSet)
    (rf : FullSetArgs → Except Unit GeneratedArtSet) (s : AppState)
    (st : PendingArt) (img pv : String) (an : VehicleAnalysis) :
    (v.success = true → s.pendingStorage = some st → st.previewArt ≠ "" →
      rr (remainingArgsOfPending st) = .error () →
      (handlePaymentReturn (.ok v) rr rf s).1.step = Step.PREVIEW ∧
      (handlePaymentReturn (.ok v) rr rf s).1.previewArt = s.previewArt ∧
      (handlePaymentReturn (.ok v) rr rf s).1.pendingStorage = some st) ∧
    (s.imageBase64 = some img → img ≠ "" → s.analysis = some an →
      s.previewArt = some pv → pv ≠ "" →
      rr (devUnlockArgs img pv an s) = .error () →
      (handleDevUnlock rr s).1.step = Step.PREVIEW ∧
      (handleDevUnlock rr s).1.previewArt = s.previewArt) := by
  constructor
  · intro hv hst hpv hrr
    refine ⟨?_, ?_, ?_⟩ <;> simp [handlePaymentReturn, hv, hst, hpv, hrr]
  · intro h1 h2 h3 h4 h5 hrr
    constructor <;> simp [handleDevUnlock, h1, h3, h4, h2, h5, hrr]

def previewState : AppState :=
  { initialAppState with
      step := .PREVIEW
      imageBase64 := some "img64"
      analysis := some sampleAnalysis
      previewArt := some "phoneArt" }

def samplePending : PendingArt :=
  ⟨"img64", sampleAnalysis, .MOUNTAINS, .CLEAN_BUILD, .SIDE_PROFILE, .STOCK,
    ["snorkel"], "phoneArt"⟩

def previewStateWithPending : AppState :=
  { previewState with pendingStorage := some samplePending }

def sampleSet : GeneratedArtSet := ⟨"phoneArt", "desktopArt", "printArt"⟩

theorem render_failure_preserves_preview_witness :
    ((handlePaymentReturn (.ok ⟨true, "cs", "paid"⟩) (fun _ => .error ())
        (fun _ => .error ()) previewStateWithPending).1.step = Step.PREVIEW ∧
      (handlePaymentReturn (.ok ⟨true, "cs", "paid"⟩) (fun _ => .error ())
        (fun _ => .error ()) previewStateWithPending).1.previewArt =
        previewStateWithPending.previewArt ∧
      (handlePaymentReturn (.ok ⟨true, "cs", "paid"⟩) (fun _ => .error ())
        (fun _ => .error ()) previewStateWithPending).1.pendingStorage =
        some samplePending) ∧
    ((handleDevUnlock (fun _ => .error ()) previewState).1.step = Step.PREVIEW ∧
      (handleDevUnlock (fun _ => .error ()) previewState).1.previewArt =
        previewState.previewArt) :=
  ⟨(render_failure_preserves_preview ⟨true, "cs", "paid"⟩ (fun _ => .error ())
      (fun _ => .error ()) previewStateWithPending samplePending "img64" "phoneArt"
      sampleAnalysis).1 rfl rfl (by decide) rfl,
    (render_failure_preserves_preview ⟨true, "cs", "paid"⟩ (fun _ => .error ())
      (fun _ => .error ()) previewState samplePending "img64" "phoneArt"
      sampleAnalysis).2 rfl (by decide) rfl rfl (by decide) rfl⟩

/-- Claim C8 counterexample: on a return flow whose payment verification
succeeds but whose paid-tier render fails, the pending-purchase record is
still present in storage after the flow completes — deletion is not tied to
successful verification. -/
theorem pending_record_survives_cex :
    (handlePaymentReturn (.ok ⟨true, "cs_live", "paid"⟩) (fun _ => .error ())
        (fun _ => .error ()) previewStateWithPending).1.pendingStorage =
      some samplePending := by decide

/-- Claim C8 (amended): the pending-purchase record is written to storage
immediately before redirecting to checkout, and on a payment return whose
verification succeeds and whose regeneration succeeds the record has been
read and deleted by the end of the flow (single-use); the deletion happens
after successful regeneration, not immediately after verification, so a
failed render retains the record. -/
theorem pending_record_lifecycle (s sr : AppState) (img pv : String)
    (an : VehicleAnalysis) (st : PendingArt) (v : PaymentVerification)
    (rr : RemainingArgs → Except Unit GeneratedArtSet)
    (rf : FullSetArgs → Except Unit GeneratedArtSet) (set : GeneratedArtSet) :
    (s.imageBase64 = some img → img ≠ "" → s.analysis = some an →
      s.previewArt = some pv → pv ≠ "" →
      (handlePurchase (.ok ()) s).1.pendingStorage =
        some (pendingSnapshot img an s pv) ∧
      (handlePurchase (.ok ()) s).2 = true) ∧
    (v.success = true → sr.pendingStorage = some st → st.previewArt ≠ "" →
      rr (remainingArgsOfPending st) = .ok set →
      (handlePaymentReturn (.ok v) rr rf sr).1.pendingStorage = none) := by
  constructor
  · intro h1 h2 h3 h4 h5
    constructor <;> simp [handlePurchase, h1, h3, h4, h2, h5]
  · intro hv hst hpv hrr
    simp [handlePaymentReturn, hv, hst, hpv, hrr]

theorem pending_record_lifecycle_witness :
    ((handlePurchase (.ok ()) previewState).1.pendingStorage =
        some (pendingSnapshot "img64" sampleAnalysis previewState "phoneArt") ∧
      (handlePurchase (.ok ()) previewState).2 = true) ∧
    (handlePaymentReturn (.ok ⟨true, "cs", "paid"⟩) (fun _ => .ok sampleSet)
        (fun _ => .error ()) previewStateWithPending).1.pendingStorage = none :=
  ⟨(pending_record_lifecycle previewState previewStateWithPending "img64" "phoneArt"
      sampleAnalysis samplePending ⟨true, "cs", "paid"⟩ (fun _ => .ok sampleSet)
      (fun _ => .error ()) sampleSet).1 rfl (by decide) rfl rfl (by decide),
    (pending_record_lifecycle previewState previewStateWithPending "img64" "phoneArt"
      sampleAnalysis samplePending ⟨true, "cs", "paid"⟩ (fun _ => .ok sampleSet)
      (fun _ => .error ()) sampleSet).2 rfl rfl (by decide) rfl⟩

lemma handlePaymentReturn_restores (v : PaymentVerification)
    (rr : RemainingArgs → Except Unit GeneratedArtSet)
    (rf : FullSetArgs → Except Unit GeneratedArtSet) (sr : AppState)
    (st : PendingArt) (set : GeneratedArtSet)
    (hv : v.success = true) (hst : sr.pendingStorage = some st)
    (hpv : st.previewArt ≠ "") (hr : rr (remainingArgsOfPending st) = .ok set) :
    (handlePaymentReturn (.ok v) rr rf sr).1 =
      { sr with imageBase64 := some st.imageBase64, analysis := some st.analysis,
                background := st.background, position := st.position,
                fidelity := st.fidelity, stance := st.stance,
                selectedMods := st.selectedMods,
                previewArt := some st.previewArt, artSet := some set,
                hasPaid := true, step := Step.COMPLETE, pendingStorage := none,
                isProcessingPayment := false } := by
  simp [handlePaymentReturn, hv, hst, hpv, hr]

/-- Claim C9: serializing the in-progress session (photo, analysis, full
config, preview image) before the checkout redirect and restoring it on a
verified return yields a state whose photo, analysis, config fields and
preview image are all equal to the original state. -/
theorem checkout_roundtrip (s : AppState) (img pv : String)
    (an : VehicleAnalysis) (v : PaymentVerification)
    (rr : RemainingArgs → Except Unit GeneratedArtSet)
    (rf : FullSetArgs → Except Unit GeneratedArtSet) (set : GeneratedArtSet)
    (h1 : s.imageBase64 = some img) (h2 : img ≠ "") (h3 : s.analysis = some an)
    (h4 : s.previewArt = some pv) (h5 : pv ≠ "") (hv : v.success = true)
    (hr : rr (remainingArgsOfPending (pendingSnapshot img an s pv)) = .ok set) :
    ((handlePaymentReturn (.ok v) rr rf
        (reloadWithStorage (handlePurchase (.ok ()) s).1.pendingStorage)).1.imageBase64 =
        s.imageBase64 ∧
      (handlePaymentReturn (.ok v) rr rf
        (reloadWithStorage (handlePurchase (.ok ()) s).1.pendingStorage)).1.analysis =
        s.analysis ∧
      (handlePaymentReturn (.ok v) rr rf
        (reloadWithStorage (handlePurchase (.ok ()) s).1.pendingStorage)).1.background =
        s.background ∧
      (handlePaymentReturn (.ok v) rr rf
        (reloadWithStorage (handlePurchase (.ok ()) s).1.pendingStorage)).1.position =
        s.position ∧
      (handlePaymentReturn (.ok v) rr rf
        (reloadWithStorage (handlePurchase (.ok ()) s).1.pendingStorage)).1.fidelity =
        s.fidelity ∧
      (handlePaymentReturn (.ok v) rr rf
        (reloadWithStorage (handlePurchase (.ok ()) s).1.pendingStorage)).1.stance =
        s.stance ∧
      (handlePaymentReturn (.ok v) rr rf
        (reloadWithStorage (handlePurchase (.ok ()) s).1.pendingStorage)).1.selectedMods =
        s.selectedMods ∧
      (handlePaymentReturn (.ok v) rr rf
        (reloadWithStorage (handlePurchase (.ok ()) s).1.pendingStorage)).1.previewArt =
        s.previewArt) := by
  have hw : (handlePurchase (.ok ()) s).1.pendingStorage =
      some (pendingSnapshot img an s pv) := by
    simp [handlePurchase, h1, h3, h4, h2, h5]
  have hrest := handlePaymentReturn_restores v rr rf
    (reloadWithStorage (handlePurchase (.ok ()) s).1.pendingStorage)
    (pendingSnapshot img an s pv) set hv
    (by rw [hw]; rfl) (by simpa [pendingSnapshot] using h5) hr
  rw [hrest]
  simp [pendingSnapshot, reloadWithStorage, h1, h3, h4]

theorem checkout_roundtrip_witness :
    ((handlePaymentReturn (.ok ⟨true, "cs", "paid"⟩) (fun _ => .ok sampleSet)
        (fun _ => .error ())
        (reloadWithStorage (handlePurchase (.ok ()) previewState).1.pendingStorage)).1.imageBase64 =
        previewState.imageBase64 ∧
      (handlePaymentReturn (.ok ⟨true, "cs", "paid"⟩) (fun _ => .ok sampleSet)
        (fun _ => .error ())
        (reloadWithStorage (handlePurchase (.ok ()) previewState).1.pendingStorage)).1.analysis =
        previewState.analysis ∧
      (handlePaymentReturn (.ok ⟨true, "cs", "paid"⟩) (fun _ => .ok sampleSet)
        (fun _ => .error ())
        (reloadWithStorage (handlePurchase (.ok ()) previewState).1.pendingStorage)).1.background =
        previewState.background ∧
      (handlePaymentReturn (.ok ⟨true, "cs", "paid"⟩) (fun _ => .ok sampleSet)
        (fun _ => .error ())
        (reloadWithStorage (handlePurchase (.ok ()) previewState).1.pendingStorage)).1.position =
        previewState.position ∧
      (handlePaymentReturn (.ok ⟨true, "cs", "paid"⟩) (fun _ => .ok sampleSet)
        (fun _ => .error ())
        (reloadWithStorage (handlePurchase (.ok ()) previewState).1.pendingStorage)).1.fidelity =
        previewState.fidelity ∧
      (handlePaymentReturn (.ok ⟨true, "cs", "paid"⟩) (fun _ => .ok sampleSet)
        (fun _ => .error ())
        (reloadWithStorage (handlePurchase (.ok ()) previewState).1.pendingStorage)).1.stance =
        previewState.stance ∧
      (handlePaymentReturn (.ok ⟨true, "cs", "paid"⟩) (fun _ => .ok sampleSet)
        (fun _ => .error ())
        (reloadWithStorage (handlePurchase (.ok ()) previewState).1.pendingStorage)).1.selectedMods =
        previewState.selectedMods ∧
      (handlePaymentReturn (.ok ⟨true, "cs", "paid"⟩) (fun _ => .ok sampleSet)
        (fun _ => .error ())
        (reloadWithStorage (handlePurchase (.ok ()) previewState).1.pendingStorage)).1.previewArt =
        previewState.previewArt) :=
  checkout_roundtrip previewState "img64" "phoneArt" sampleAnalysis
    ⟨true, "cs", "paid"⟩ (fun _ => .ok sampleSet) (fun _ => .error ()) sampleSet
    rfl (by decide) rfl rfl (by decide) rfl rfl

end RideCanvas
